import Mathlib

/-!
Verification development for the zmanim source-generation utility.

Part 1 embeds the AST-based method classifier (`a.py`): AST member nodes are
records whose fields are `Option`-valued to represent possibly-missing JSON
keys (`dict.get` with a default reads the field through `Option.getD`; a bare
`dict[key]` lookup is a `match` that fails on `none`, mirroring `KeyError`).
The classifier routes each declaration into one of three bucket sets and the
tool prints one bucket as an enumeration skeleton.

Part 2 embeds the table-driven declaration emitter (`schema.py`).
-/

namespace ZmanimGen

/-- A modifier node: the classifier reads `node`, `keyword` and
`typeName.identifier`, each through a defaulted lookup. -/
structure Modifier where
  node : Option String
  keyword : Option String
  typeNameIdentifier : Option String
deriving DecidableEq, Repr

/-- The `returnType2` mapping: the classifier reads `node` and
`name.identifier`, each through a defaulted lookup. -/
structure ReturnType2 where
  node : Option String
  nameIdentifier : Option String
deriving DecidableEq, Repr

/-- One member of `bodyDeclarations`.  `nameIdentifier` models the nested
`i.get("name", \x7b\x7d).get("identifier", "")` chain; `node` models the
required `i["node"]` key (absent key = `none`); `modifiers` models
`i.get("modifiers", [])`; `returnType2` models the nullable `returnType2`;
`parameters` models `i.get("parameters", [1])` (only its length is used,
so elements are `Unit`). -/
structure BodyDecl where
  nameIdentifier : Option String
  node : Option String
  modifiers : Option (List Modifier)
  returnType2 : Option ReturnType2
  parameters : Option (List Unit)
deriving DecidableEq, Repr

/-- The first declared type: `data["types"][0]["bodyDeclarations"]`. -/
structure TypeDecl where
  bodyDeclarations : Option (List BodyDecl)
deriving DecidableEq, Repr

/-- The AST root: `data["types"]`. -/
structure Root where
  types : Option (List TypeDecl)
deriving DecidableEq, Repr

/-- Python `str.startswith`, on the code-point sequence of the string. -/
def strStartsWith (s p : String) : Bool := p.data.isPrefixOf s.data

/-- Python slicing `name[n:]`, on the code-point sequence of the string. -/
def strDrop (s : String) (n : Nat) : String := String.mk (s.data.drop n)

/-- Lexicographic less-or-equal on code-point sequences, the order Python's
`sorted` uses on strings. -/
def lexLe : List Char → List Char → Bool
  | [], _ => true
  | _ :: _, [] => false
  | a :: as, b :: bs =>
    if a.toNat < b.toNat then true
    else if b.toNat < a.toNat then false
    else lexLe as bs

/-- Lexicographic less-or-equal on strings. -/
def strLe (s t : String) : Bool := lexLe s.data t.data

/-- The sorting relation used for bucket output. -/
def strLeRel (s t : String) : Prop := strLe s t = true

instance : DecidableRel strLeRel := fun s t =>
  inferInstanceAs (Decidable (strLe s t = true))

/-- Which bucket a classified declaration lands in: `calc` is the
zero-argument set `zmanim_calc_methods`, `args` is `zmanim_methods`,
`other` is `other_methods`. -/
inductive Bucket where
  | calc
  | args
  | other
deriving DecidableEq, Repr

/-- A Python `set` of strings, modelled as a duplicate-free list:
`set.add` inserts only when the element is not already present (iteration
order is irrelevant because the tool only ever consumes the sets through
`sorted`). -/
def addName (n : String) (l : List String) : List String :=
  if n ∈ l then l else l ++ [n]

/-- The three bucket sets built by the classifier loop. -/
structure Buckets where
  zmanim_calc_methods : List String
  zmanim_methods : List String
  other_methods : List String
deriving DecidableEq, Repr

/-- The empty state the loop starts from. -/
def emptyBuckets : Buckets := ⟨[], [], []⟩

/-- The modifier loop of `a.py`: folds over the modifiers carrying
`is_public`, and stops with `is_deprecated = true` at the first
`MarkerAnnotation` modifier whose `typeName.identifier` is `Deprecated`
(the `break`).  Returns the pair `(is_public, is_deprecated)`. -/
def modifierFlags (is_public : Bool) : List Modifier → Bool × Bool
  | [] => (is_public, false)
  | m :: rest =>
    let is_public :=
      is_public ||
        (m.node.getD "" == "Modifier" && m.keyword.getD "" == "public")
    if m.node.getD "" == "MarkerAnnotation" &&
        m.typeNameIdentifier.getD "" == "Deprecated" then
      (is_public, true)
    else
      modifierFlags is_public rest

/-- The body of the classifier loop for a single declaration.  Returns
`.error` when the required `i["node"]` key is absent (Python `KeyError`),
`.ok none` when the declaration is skipped by a `continue`, and
`.ok (some (bucket, name))` when the (accessor-prefix-stripped) name is
added to a bucket. -/
def classifyDecl (i : BodyDecl) : Except String (Option (Bucket × String)) :=
  let name := i.nameIdentifier.getD ""
  if strStartsWith name "set" then .ok none
  else
    let name := if strStartsWith name "get" then strDrop name 3 else name
    match i.node with
    | none => .error "KeyError: node"
    | some node =>
      if node ≠ "MethodDeclaration" then .ok none
      else
        let flags := modifierFlags false (i.modifiers.getD [])
        if !flags.1 || flags.2 then .ok none
        else
          match i.returnType2 with
          | none => .ok none
          | some rt =>
            if rt.node.getD "" == "SimpleType" &&
                rt.nameIdentifier.getD "" == "Date" then
              if (i.parameters.getD [()]).length == 0 then
                .ok (some (.calc, name))
              else
                .ok (some (.args, name))
            else
              .ok (some (.other, name))

/-- Add a name to the bucket a declaration was routed to (`set.add`). -/
def addBucket (b : Bucket) (n : String) (st : Buckets) : Buckets :=
  match b with
  | .calc => { st with zmanim_calc_methods := addName n st.zmanim_calc_methods }
  | .args => { st with zmanim_methods := addName n st.zmanim_methods }
  | .other => { st with other_methods := addName n st.other_methods }

/-- The classifier loop over the member declarations. -/
def runDecls (st : Buckets) : List BodyDecl → Except String Buckets
  | [] => .ok st
  | d :: ds =>
    match classifyDecl d with
    | .error e => .error e
    | .ok none => runDecls st ds
    | .ok (some (b, n)) => runDecls (addBucket b n st) ds

/-- The whole classifier run: the root lookups
`data["types"][0]["bodyDeclarations"]` (each a `KeyError`/`IndexError` when
absent) followed by the loop. -/
def runClassifier (data : Root) : Except String Buckets :=
  match data.types with
  | none => .error "KeyError: types"
  | some ts =>
    match ts with
    | [] => .error "IndexError: types[0]"
    | t :: _ =>
      match t.bodyDeclarations with
      | none => .error "KeyError: bodyDeclarations"
      | some ds => runDecls emptyBuckets ds

/-- `sorted(bucket)`: the lexicographically sorted sequence of a bucket set.
Since the buckets are duplicate-free, any comparison sort produces the same
sequence as Python's `sorted`. -/
def sortB (s : List String) : List String := s.insertionSort strLeRel

/-- The canonical name a declaration contributes: its identifier with a
leading accessor prefix stripped. -/
def strippedName (d : BodyDecl) : String :=
  let n := d.nameIdentifier.getD ""
  if strStartsWith n "get" then strDrop n 3 else n

/-- The variant names printed inside `pub enum Calculations`: the loop
`for i in zmanim_methods` runs over the sorted `zmanim_methods` list. -/
def variantNames (b : Buckets) : List String := sortB b.zmanim_methods

/-- The printed lines of the enumeration skeleton. -/
def printedEnum (b : Buckets) : List String :=
  "pub enum Calculations \x7b" ::
    ((variantNames b).map (fun i => "    " ++ i ++ ",") ++ ["\x7d"])

/-- `DecidableEq` for `Except`, so that concrete classifier runs can be
settled by `decide`. -/
instance {e a : Type} [DecidableEq e] [DecidableEq a] :
    DecidableEq (Except e a) := fun x y =>
  match x, y with
  | .error u, .error v =>
    if h : u = v then .isTrue (by rw [h]) else .isFalse (by simp [h])
  | .error _, .ok _ => .isFalse (by simp)
  | .ok _, .error _ => .isFalse (by simp)
  | .ok u, .ok v =>
    if h : u = v then .isTrue (by rw [h]) else .isFalse (by simp [h])

/-! ## Order and set lemmas for the classifier -/

theorem lexLe_cons {a b : Char} {as bs : List Char} :
    lexLe (a :: as) (b :: bs) = true ↔
      a.toNat < b.toNat ∨ (a.toNat = b.toNat ∧ lexLe as bs = true) := by
  simp only [lexLe]
  split
  · rename_i h
    simp [h]
  · rename_i h
    split
    · rename_i h2
      simp
      omega
    · rename_i h2
      have hab : a.toNat = b.toNat := by omega
      simp [hab]

instance : IsTotal String strLeRel := by
  constructor
  intro s t
  suffices h : ∀ as bs : List Char, lexLe as bs = true ∨ lexLe bs as = true by
    exact h s.data t.data
  intro as
  induction as with
  | nil => intro bs; left; rfl
  | cons a as ih =>
    intro bs
    cases bs with
    | nil => right; rfl
    | cons b bs =>
      rcases Nat.lt_trichotomy a.toNat b.toNat with h | h | h
      · left; rw [lexLe_cons]; left; exact h
      · rcases ih bs with h2 | h2
        · left; rw [lexLe_cons]; right; exact ⟨h, h2⟩
        · right; rw [lexLe_cons]; right; exact ⟨h.symm, h2⟩
      · right; rw [lexLe_cons]; left; exact h

instance : IsTrans String strLeRel := by
  constructor
  intro s t u
  suffices h : ∀ as bs cs : List Char,
      lexLe as bs = true → lexLe bs cs = true → lexLe as cs = true by
    exact h s.data t.data u.data
  intro as
  induction as with
  | nil => intro bs cs _ _; rfl
  | cons a as ih =>
    intro bs cs h1 h2
    cases bs with
    | nil => simp [lexLe] at h1
    | cons b bs =>
      cases cs with
      | nil => simp [lexLe] at h2
      | cons c cs =>
        rw [lexLe_cons] at h1 h2 ⊢
        rcases h1 with h1 | ⟨h1e, h1r⟩
        · rcases h2 with h2 | ⟨h2e, h2r⟩
          · left; omega
          · left; omega
        · rcases h2 with h2 | ⟨h2e, h2r⟩
          · left; omega
          · right; exact ⟨by omega, ih bs cs h1r h2r⟩

/-- Membership after a `set.add`. -/
theorem mem_addName {m n : String} {l : List String} :
    m ∈ addName n l ↔ m = n ∨ m ∈ l := by
  unfold addName
  split
  · rename_i h
    constructor
    · intro hm; right; exact hm
    · rintro (rfl | hm) <;> assumption
  · simp [or_comm]

/-- A `set.add` keeps the bucket duplicate-free. -/
theorem nodup_addName {n : String} {l : List String} (h : l.Nodup) :
    (addName n l).Nodup := by
  unfold addName
  split
  · exact h
  · rename_i hn
    refine List.Nodup.append h (List.nodup_singleton n) ?_
    intro a hal han
    rw [List.mem_singleton] at han
    exact hn (han ▸ hal)

/-- The field of `Buckets` a given `Bucket` tag selects. -/
def bucketOf (b : Bucket) (st : Buckets) : List String :=
  match b with
  | .calc => st.zmanim_calc_methods
  | .args => st.zmanim_methods
  | .other => st.other_methods

theorem mem_bucketOf_addBucket {b b' : Bucket} {n m : String} {st : Buckets} :
    m ∈ bucketOf b (addBucket b' n st) ↔ (b = b' ∧ m = n) ∨ m ∈ bucketOf b st := by
  cases b <;> cases b' <;>
    simp [bucketOf, addBucket, mem_addName]

theorem nodup_bucketOf_addBucket {b' : Bucket} {n : String} {st : Buckets}
    (h : ∀ c, (bucketOf c st).Nodup) : ∀ c, (bucketOf c (addBucket b' n st)).Nodup := by
  intro c
  have hc := h Bucket.calc
  have ha := h Bucket.args
  have ho := h Bucket.other
  simp only [bucketOf] at hc ha ho
  cases c <;> cases b' <;>
    simp only [bucketOf, addBucket] <;>
    first
      | exact nodup_addName hc
      | exact nodup_addName ha
      | exact nodup_addName ho
      | exact hc
      | exact ha
      | exact ho

/-- Where the final content of each bucket comes from: a name is in a bucket
of the final state iff it was there initially or some declaration of the
list was classified into that bucket with that name. -/
theorem runDecls_mem {ds : List BodyDecl} :
    ∀ {st0 st : Buckets}, runDecls st0 ds = .ok st →
      ∀ b n, (n ∈ bucketOf b st ↔
        n ∈ bucketOf b st0 ∨ ∃ d ∈ ds, classifyDecl d = .ok (some (b, n))) := by
  induction ds with
  | nil =>
    intro st0 st h b n
    cases h
    simp [runDecls]
  | cons d ds ih =>
    intro st0 st h b n
    rw [runDecls] at h
    rcases hc : classifyDecl d with e | r <;> rw [hc] at h
    · cases h
    · rcases r with _ | ⟨b', m⟩
      · rw [ih h b n]
        simp only [List.mem_cons]
        constructor
        · rintro (h1 | ⟨d', hd', h2⟩)
          · exact Or.inl h1
          · exact Or.inr ⟨d', Or.inr hd', h2⟩
        · rintro (h1 | ⟨d', hd', h2⟩)
          · exact Or.inl h1
          · rcases hd' with rfl | hd'
            · rw [hc] at h2; cases h2
            · exact Or.inr ⟨d', hd', h2⟩
      · rw [ih h b n, mem_bucketOf_addBucket]
        simp only [List.mem_cons]
        constructor
        · rintro ((⟨rfl, rfl⟩ | h1) | ⟨d', hd', h2⟩)
          · exact Or.inr ⟨d, Or.inl rfl, hc⟩
          · exact Or.inl h1
          · exact Or.inr ⟨d', Or.inr hd', h2⟩
        · rintro (h1 | ⟨d', hd', h2⟩)
          · exact Or.inl (Or.inr h1)
          · rcases hd' with rfl | hd'
            · rw [hc] at h2
              injection h2 with h2
              injection h2 with h2
              injection h2 with h3 h4
              exact Or.inl (Or.inl ⟨h3.symm, h4.symm⟩)
            · exact Or.inr ⟨d', hd', h2⟩

/-- The classifier loop keeps every bucket duplicate-free. -/
theorem runDecls_nodup {ds : List BodyDecl} :
    ∀ {st0 st : Buckets}, (∀ c, (bucketOf c st0).Nodup) →
      runDecls st0 ds = .ok st → ∀ c, (bucketOf c st).Nodup := by
  induction ds with
  | nil =>
    intro st0 st h0 h
    cases h
    exact h0
  | cons d ds ih =>
    intro st0 st h0 h
    rw [runDecls] at h
    rcases hc : classifyDecl d with e | r <;> rw [hc] at h
    · cases h
    · rcases r with _ | ⟨b', m⟩
      · exact ih h0 h
      · exact ih (nodup_bucketOf_addBucket h0) h

/-- If no declaration of the list raises, the loop completes. -/
theorem runDecls_ok {ds : List BodyDecl} :
    ∀ st0 : Buckets, (∀ d ∈ ds, ∃ r, classifyDecl d = .ok r) →
      ∃ st, runDecls st0 ds = .ok st := by
  induction ds with
  | nil => exact fun st0 _ => ⟨st0, rfl⟩
  | cons d ds ih =>
    intro st0 h
    obtain ⟨r, hr⟩ := h d (List.mem_cons_self d ds)
    rcases r with _ | ⟨b, n⟩
    · obtain ⟨st, hst⟩ := ih st0 (fun d' hd' => h d' (List.mem_cons_of_mem d hd'))
      exact ⟨st, by rw [runDecls, hr]; exact hst⟩
    · obtain ⟨st, hst⟩ :=
        ih (addBucket b n st0) (fun d' hd' => h d' (List.mem_cons_of_mem d hd'))
      exact ⟨st, by rw [runDecls, hr]; exact hst⟩

/-! ## Single-declaration classification lemmas -/

/-- A modifier that is the deprecated marker annotation. -/
def isDeprecatedModifier (m : Modifier) : Bool :=
  m.node.getD "" == "MarkerAnnotation" && m.typeNameIdentifier.getD "" == "Deprecated"

/-- A declaration carrying the deprecated marker among its modifiers. -/
def hasDeprecatedMarker (d : BodyDecl) : Bool :=
  (d.modifiers.getD []).any isDeprecatedModifier

/-- The `is_deprecated` flag of the modifier loop is exactly "some modifier
is the deprecated marker" (the `break` stops at the first one). -/
theorem modifierFlags_snd (b : Bool) (ms : List Modifier) :
    (modifierFlags b ms).2 = ms.any isDeprecatedModifier := by
  induction ms generalizing b with
  | nil => rfl
  | cons m rest ih =>
    simp only [modifierFlags, List.any_cons, isDeprecatedModifier]
    split
    · rename_i h
      simp [h]
    · rename_i h
      rw [ih]
      simp only [Bool.not_eq_true] at h
      simp [h, isDeprecatedModifier]

/-- The only way a single declaration raises: its name does not start with
the mutator prefix and the required node-kind tag is absent. -/
theorem classifyDecl_error {d : BodyDecl} {e : String}
    (h : classifyDecl d = .error e) :
    strStartsWith (d.nameIdentifier.getD "") "set" = false ∧
      d.node = none ∧ e = "KeyError: node" := by
  by_cases h1 : strStartsWith (d.nameIdentifier.getD "") "set" = true
  · simp [classifyDecl, h1] at h
  · simp only [Bool.not_eq_true] at h1
    rcases hn : d.node with _ | nd
    · simp [classifyDecl, h1, hn] at h
      exact ⟨h1, rfl, h.symm⟩
    · simp only [classifyDecl, h1, hn, Bool.false_eq_true, if_false] at h
      repeat' split at h
      all_goals cases h

/-- A declaration whose node-kind tag is present never raises, whatever
other fields are absent. -/
theorem classifyDecl_ok_of_node {d : BodyDecl} {nd : String}
    (h : d.node = some nd) : ∃ r, classifyDecl d = .ok r := by
  rcases hx : classifyDecl d with e | r
  · rcases classifyDecl_error hx with ⟨-, h2, -⟩
    rw [h] at h2
    cases h2
  · exact ⟨r, rfl⟩

/-- A mutator-prefixed declaration is skipped outright. -/
theorem classifyDecl_set {d : BodyDecl}
    (h : strStartsWith (d.nameIdentifier.getD "") "set" = true) :
    classifyDecl d = .ok none := by
  simp [classifyDecl, h]

/-- A declaration missing the node-kind tag raises, unless the
mutator-prefix rule already skipped it. -/
theorem classifyDecl_missing_node {d : BodyDecl}
    (h1 : strStartsWith (d.nameIdentifier.getD "") "set" = false)
    (h2 : d.node = none) : classifyDecl d = .error "KeyError: node" := by
  simp [classifyDecl, h1, h2]

/-- A deprecated declaration is never placed in any bucket. -/
theorem classifyDecl_deprecated {d : BodyDecl}
    (h : hasDeprecatedMarker d = true) :
    ∀ b n, classifyDecl d ≠ .ok (some (b, n)) := by
  intro b n hx
  have hdep : (modifierFlags false (d.modifiers.getD [])).2 = true := by
    rw [modifierFlags_snd]
    exact h
  by_cases h1 : strStartsWith (d.nameIdentifier.getD "") "set" = true
  · simp [classifyDecl, h1] at hx
  · simp only [Bool.not_eq_true] at h1
    rcases hn : d.node with _ | nd
    · simp [classifyDecl, h1, hn] at hx
    · simp [classifyDecl, h1, hn, hdep] at hx

/-- Routing of a qualified `Date`-returning declaration: with the pipeline
conditions satisfied, the bucket is decided by the length of the defaulted
parameter list. -/
theorem classifyDecl_date {d : BodyDecl} {rt : ReturnType2}
    (hset : strStartsWith (d.nameIdentifier.getD "") "set" = false)
    (hnode : d.node = some "MethodDeclaration")
    (hpub : (modifierFlags false (d.modifiers.getD [])).1 = true)
    (hdep : (modifierFlags false (d.modifiers.getD [])).2 = false)
    (hrt : d.returnType2 = some rt)
    (hsimple : rt.node.getD "" = "SimpleType")
    (hdate : rt.nameIdentifier.getD "" = "Date") :
    classifyDecl d =
      .ok (some ((if (d.parameters.getD [()]).length == 0 then .calc else .args),
        strippedName d)) := by
  unfold classifyDecl strippedName
  simp [hset, hnode, hpub, hdep, hrt, hsimple, hdate]
  split <;> rfl

/-! ## Part 2: the declaration emitter of `schema.py` -/

/-- The semantic type tag of a constant record.  The source tags records with
the Python types `float`, `int` and `datetime`; `other` stands for any other
type object reaching `type_to_rust`'s final `else` branch. -/
inductive CType where
  | float
  | int
  | datetime
  | other (s : String)
deriving DecidableEq, Repr

/-- A constant record. -/
structure Constant where
  name : String
  type : CType
  value : String
deriving DecidableEq, Repr

/-- A plain enum member. -/
structure EnumMember where
  name : String
  value : Int
deriving DecidableEq, Repr

/-- A plain enum record. -/
structure Enum where
  name : String
  members : List EnumMember
deriving DecidableEq, Repr

/-- A transliterated-enum member: native-script label, transliterated label
and numeric value. -/
structure TransliteratedEnumMember where
  name : String
  transliterated_name : String
  value : Int
deriving DecidableEq, Repr

/-- Modelled from the spec: the casing-conversion helper
`to_identifier_case(text) -> text` (the `pascalcase` import), an external
collaborator consumed as a pure function.  Words are maximal alphanumeric
runs; each word is emitted with its first character uppercased and the rest
lowercased, and the words are concatenated. -/
def pascalChars (atStart : Bool) : List Char → List Char
  | [] => []
  | c :: rest =>
    if c.isAlphanum then
      (if atStart then c.toUpper else c.toLower) :: pascalChars false rest
    else
      pascalChars true rest

/-- Modelled from the spec: `pascalcase` on a whole string. -/
def pascalcase (s : String) : String := String.mk (pascalChars true s.toList)

/-- `type_to_rust`: map a semantic type tag to the target type name, raising
`ValueError` on anything unrecognized. -/
def type_to_rust : CType → Except String String
  | .float => .ok "f64"
  | .int => .ok "i64"
  | .datetime => .ok "DateTime<Utc>"
  | .other s => .error ("Unknown type: " ++ s)

/-- One arm of the `en_string` match: pair of the identifier-cased key and
the transliterated string it returns. -/
def en_arms (enums : List TransliteratedEnumMember) : List (String × String) :=
  enums.map (fun m => (pascalcase m.transliterated_name, m.transliterated_name))

/-- One arm of the `he_string` match: pair of the identifier-cased key and
the native-script string it returns. -/
def he_arms (enums : List TransliteratedEnumMember) : List (String × String) :=
  enums.map (fun m => (pascalcase m.transliterated_name, m.name))

/-- The variant identifiers of a transliterated enumeration, in table order. -/
def variantsOf (enums : List TransliteratedEnumMember) : List String :=
  enums.map (fun m => pascalcase m.transliterated_name)

/-- The text of one `en_string`/`he_string` match arm. -/
def armLine (name : String) (arm : String × String) : String :=
  "    " ++ name ++ "::" ++ arm.1 ++ " => \"" ++ arm.2 ++ "\",\n"

/-- The text of one variant line of the enumeration declaration. -/
def variantLine (m : TransliteratedEnumMember) : String :=
  "    " ++ pascalcase m.transliterated_name ++ " = " ++ toString m.value ++ ",\n"

/-- The derive/repr attribute header emitted before every enumeration. -/
def deriveHeader : String :=
  "#[derive(Debug, PartialEq, Eq, Clone, Copy, IntoPrimitive, TryFromPrimitive)]\n#[repr(i64)]\n"

/-- `transliterated_enums_to_rust`: the enumeration declaration followed by
the `impl` block holding the two lookup functions, each an accumulation of
one match arm per table member (the `for member in enums` loops become
`String.join` over the mapped arm texts). -/
def transliterated_enums_to_rust (name : String)
    (enums : List TransliteratedEnumMember) : String :=
  let impl_buffer :=
    "impl " ++ name ++ " \x7b\n" ++
    "pub fn en_string(&self) -> &str \x7b match self \x7b" ++
    String.join ((en_arms enums).map (armLine name)) ++
    "\x7d\x7d\n" ++
    "pub fn he_string(&self) -> &str \x7b match self \x7b" ++
    String.join ((he_arms enums).map (armLine name)) ++
    "\x7d\x7d\n" ++
    "\x7d\n"
  let buffer :=
    "" ++
    deriveHeader ++
    "pub enum " ++ name ++ " \x7b\n" ++
    String.join (enums.map variantLine) ++
    "\x7d\n"
  buffer ++ impl_buffer

/-- The line the `constants` command emits for one constant record:
`datetime`-typed records get the construction-from-epoch-milliseconds
initializer, all others get `type_to_rust` and the literal value verbatim. -/
def constantLine (c : Constant) : Except String String :=
  if c.type = .datetime then
    .ok ("pub static _" ++ c.name ++ ": DateTime<Utc> = DateTime::from_timestamp_millis(" ++
      c.value ++ ").unwrap();\n")
  else do
    let t ← type_to_rust c.type
    pure ("pub static _" ++ c.name ++ ": " ++ t ++ " = " ++ c.value ++ ";\n")

/-- The import header both commands start their buffer with. -/
def useHeader : String :=
  "\n    use chrono::\x7bDateTime, Utc\x7d;\n    use num_enum::\x7bIntoPrimitive, TryFromPrimitive\x7d;\n    "

/-- The loop of the `constants` command: accumulate one line per record,
propagating the `ValueError` from `type_to_rust`. -/
def constantsLoop (buffer : String) : List Constant → Except String String
  | [] => .ok buffer
  | c :: cs =>
    match constantLine c with
    | .error e => .error e
    | .ok line => constantsLoop (buffer ++ line) cs

/-- The full text the `constants` command writes (or the error that aborts
the run): the import header followed by one line per record. -/
def constantsBuffer (cs : List Constant) : Except String String :=
  constantsLoop useHeader cs

/-- The declaration the `enums` command emits for one plain enum record. -/
def plainEnumDecl (e : Enum) : String :=
  deriveHeader ++
  "pub enum _" ++ pascalcase e.name ++ " \x7b\n" ++
  String.join (e.members.map
    (fun member => "    " ++ pascalcase member.name ++ " = " ++ toString member.value ++ ",\n")) ++
  "\x7d\n"

/-- Modelled from the spec: the generated instant initializer
`DateTime::from_timestamp_millis(v).unwrap()` in the target language aborts
(fails fast) at initialization when the millisecond count `v` lies outside
the representable range `[lo, hi]` of the target datetime type, and
otherwise produces the instant at `v` milliseconds from the epoch. -/
def fromTimestampMillisUnwrap (lo hi v : Int) : Except String Int :=
  if lo ≤ v ∧ v ≤ hi then .ok v
  else .error "called Option::unwrap() on a None value"

/-! ## The static reference tables -/

/-- The `PARSHAS` table. -/
def PARSHAS : List TransliteratedEnumMember := [
  ⟨"בראשית", "Bereshis", 0⟩,
  ⟨"נח", "Noach", 1⟩,
  ⟨"לך לך", "Lech Lecha", 2⟩,
  ⟨"וירא", "Vayera", 3⟩,
  ⟨"חיי שרה", "Chayei Sara", 4⟩,
  ⟨"תולדות", "Toldos", 5⟩,
  ⟨"ויצא", "Vayetzei", 6⟩,
  ⟨"וישלח", "Vayishlach", 7⟩,
  ⟨"וישב", "Vayeshev", 8⟩,
  ⟨"מקץ", "Miketz", 9⟩,
  ⟨"ויגש", "Vayigash", 10⟩,
  ⟨"ויחי", "Vayechi", 11⟩,
  ⟨"שמות", "Shemos", 12⟩,
  ⟨"וארא", "Vaera", 13⟩,
  ⟨"בא", "Bo", 14⟩,
  ⟨"בשלח", "Beshalach", 15⟩,
  ⟨"יתרו", "Yisro", 16⟩,
  ⟨"משפטים", "Mishpatim", 17⟩,
  ⟨"תרומה", "Terumah", 18⟩,
  ⟨"תצוה", "Tetzaveh", 19⟩,
  ⟨"כי תשא", "Ki Sisa", 20⟩,
  ⟨"ויקהל", "Vayakhel", 21⟩,
  ⟨"פקודי", "Pekudei", 22⟩,
  ⟨"ויקרא", "Vayikra", 23⟩,
  ⟨"צו", "Tzav", 24⟩,
  ⟨"שמיני", "Shmini", 25⟩,
  ⟨"תזריע", "Tazria", 26⟩,
  ⟨"מצרע", "Metzora", 27⟩,
  ⟨"אחרי מות", "Achrei Mos", 28⟩,
  ⟨"קדושים", "Kedoshim", 29⟩,
  ⟨"אמור", "Emor", 30⟩,
  ⟨"בהר", "Behar", 31⟩,
  ⟨"בחקתי", "Bechukosai", 32⟩,
  ⟨"במדבר", "Bamidbar", 33⟩,
  ⟨"נשא", "Nasso", 34⟩,
  ⟨"בהעלתך", "Beha\x27aloscha", 35⟩,
  ⟨"שלח לך", "Sh\x27lach", 36⟩,
  ⟨"קרח", "Korach", 37⟩,
  ⟨"חוקת", "Chukas", 38⟩,
  ⟨"בלק", "Balak", 39⟩,
  ⟨"פינחס", "Pinchas", 40⟩,
  ⟨"מטות", "Matos", 41⟩,
  ⟨"מסעי", "Masei", 42⟩,
  ⟨"דברים", "Devarim", 43⟩,
  ⟨"ואתחנן", "Vaeschanan", 44⟩,
  ⟨"עקב", "Eikev", 45⟩,
  ⟨"ראה", "Re\x27eh", 46⟩,
  ⟨"שופטים", "Shoftim", 47⟩,
  ⟨"כי תצא", "Ki Seitzei", 48⟩,
  ⟨"כי תבוא", "Ki Savo", 49⟩,
  ⟨"נצבים", "Nitzavim", 50⟩,
  ⟨"וילך", "Vayeilech", 51⟩,
  ⟨"האזינו", "Ha\x27Azinu", 52⟩,
  ⟨"וזאת הברכה ", "Vezos Habracha", 53⟩,
  ⟨"ויקהל פקודי", "Vayakhel Pekudei", 54⟩,
  ⟨"תזריע מצרע", "Tazria Metzora", 55⟩,
  ⟨"אחרי מות קדושים", "Achrei Mos Kedoshim", 56⟩,
  ⟨"בהר בחקתי", "Behar Bechukosai", 57⟩,
  ⟨"חוקת בלק", "Chukas Balak", 58⟩,
  ⟨"מטות מסעי", "Matos Masei", 59⟩,
  ⟨"נצבים וילך", "Nitzavim Vayeilech", 60⟩,
  ⟨"שקלים", "Shekalim", 61⟩,
  ⟨"זכור", "Zachor", 62⟩,
  ⟨"פרה", "Parah", 63⟩,
  ⟨"החדש", "Hachodesh", 64⟩,
  ⟨"שובה", "Shuva", 65⟩,
  ⟨"שירה", "Shira", 66⟩,
  ⟨"הגדול", "Hagadol", 67⟩,
  ⟨"חזון", "Chazon", 68⟩,
  ⟨"נחמו", "Nachamu", 69⟩
]

/-- The `HEBREW_MONTHS` table. -/
def HEBREW_MONTHS : List TransliteratedEnumMember := [
  ⟨"ניסן", "Nissan", 1⟩,
  ⟨"אייר", "Iyar", 2⟩,
  ⟨"סיון", "Sivan", 3⟩,
  ⟨"תמוז", "Tammuz", 4⟩,
  ⟨"אב", "Av", 5⟩,
  ⟨"אלול", "Elul", 6⟩,
  ⟨"תשרי", "Tishrei", 7⟩,
  ⟨"חשון", "Cheshvan", 8⟩,
  ⟨"כסלו", "Kislev", 9⟩,
  ⟨"טבת", "Teves", 10⟩,
  ⟨"שבט", "Shevat", 11⟩,
  ⟨"אדר", "Adar", 12⟩,
  ⟨"אדר ב", "Adar II", 13⟩
]

/-- The `DAY_OF_WEEKS` table. -/
def DAY_OF_WEEKS : List TransliteratedEnumMember := [
  ⟨"ראשון", "Sunday", 1⟩,
  ⟨"שני", "Monday", 2⟩,
  ⟨"שלישי", "Tuesday", 3⟩,
  ⟨"רביעי", "Wednesday", 4⟩,
  ⟨"חמישי", "Thursday", 5⟩,
  ⟨"שישי", "Friday", 6⟩,
  ⟨"שבת", "Shabbos", 7⟩
]

/-- The `JEWISH_HOLIDAYS` table. -/
def JEWISH_HOLIDAYS : List TransliteratedEnumMember := [
  ⟨"ערב פסח", "Erev Pesach", 0⟩,
  ⟨"פסח", "Pesach", 1⟩,
  ⟨"חול המועד פסח", "Chol Hamoed Pesach", 2⟩,
  ⟨"פסח שני", "Pesach Sheni", 3⟩,
  ⟨"ערב שבועות", "Erev Shavuos", 4⟩,
  ⟨"שבועות", "Shavuos", 5⟩,
  ⟨"שבעה עשר בתמוז", "Seventeenth of Tammuz", 6⟩,
  ⟨"תשעה באב", "Tishah B\x27Av", 7⟩,
  ⟨"ט״ו באב", "Tu B\x27Av", 8⟩,
  ⟨"ערב ראש השנה", "Erev Rosh Hashana", 9⟩,
  ⟨"ראש השנה", "Rosh Hashana", 10⟩,
  ⟨"צום גדליה", "Fast of Gedalyah", 11⟩,
  ⟨"ערב יום כיפור", "Erev Yom Kippur", 12⟩,
  ⟨"יום כיפור", "Yom Kippur", 13⟩,
  ⟨"ערב סוכות", "Erev Succos", 14⟩,
  ⟨"סוכות", "Succos", 15⟩,
  ⟨"חול המועד סוכות", "Chol Hamoed Succos", 16⟩,
  ⟨"הושענא רבה", "Hoshana Rabbah", 17⟩,
  ⟨"שמיני עצרת", "Shemini Atzeres", 18⟩,
  ⟨"שמחת תורה", "Simchas Torah", 19⟩,
  ⟨"ערב חנוכה", "Erev Chanukah", 20⟩,
  ⟨"חנוכה", "Chanukah", 21⟩,
  ⟨"עשרה בטבת", "Tenth of Teves", 22⟩,
  ⟨"ט״ו בשבט", "Tu B\x27Shvat", 23⟩,
  ⟨"תענית אסתר", "Fast of Esther", 24⟩,
  ⟨"פורים", "Purim", 25⟩,
  ⟨"שושן פורים", "Shushan Purim", 26⟩,
  ⟨"פורים קטן", "Purim Katan", 27⟩,
  ⟨"ראש חודש", "Rosh Chodesh", 28⟩,
  ⟨"יום השואה", "Yom HaShoah", 29⟩,
  ⟨"יום הזיכרון", "Yom Hazikaron", 30⟩,
  ⟨"יום העצמאות", "Yom Ha\x27atzmaut", 31⟩,
  ⟨"יום ירושלים", "Yom Yerushalayim", 32⟩,
  ⟨"ל״ג בעומר", "Lag B\x27Omer", 33⟩,
  ⟨"שושן פורים קטן", "Shushan Purim Katan", 34⟩,
  ⟨"אסרו חג", "Isru Chag", 35⟩,
  ⟨"יום העצמאות", "Yom Kippur Katan", 36⟩,
  ⟨"יום כיפור קטן", "Behab", 37⟩
]

/-- The `YEAR_LENGTH_TYPES` table. -/
def YEAR_LENGTH_TYPES : List TransliteratedEnumMember := [
  ⟨"חסרים", "Chaserim", 0⟩,
  ⟨"כסדרן", "Kesidran", 1⟩,
  ⟨"שלמים", "Shelaimim", 2⟩
]

/-- The `BAVLI_TRACTATES` table. -/
def BAVLI_TRACTATES : List TransliteratedEnumMember := [
  ⟨"ברכות", "Berachos", 0⟩,
  ⟨"שבת", "Shabbos", 1⟩,
  ⟨"עירובין", "Eruvin", 2⟩,
  ⟨"פסחים", "Pesachim", 3⟩,
  ⟨"שקלים", "Shekalim", 4⟩,
  ⟨"יומא", "Yoma", 5⟩,
  ⟨"סוכה", "Sukkah", 6⟩,
  ⟨"ביצה", "Beitzah", 7⟩,
  ⟨"ראש השנה", "Rosh Hashana", 8⟩,
  ⟨"תענית", "Taanis", 9⟩,
  ⟨"מגילה", "Megillah", 10⟩,
  ⟨"מועד קטן", "Moed Katan", 11⟩,
  ⟨"חגיגה", "Chagigah", 12⟩,
  ⟨"יבמות", "Yevamos", 13⟩,
  ⟨"כתובות", "Kesubos", 14⟩,
  ⟨"נדרים", "Nedarim", 15⟩,
  ⟨"נזיר", "Nazir", 16⟩,
  ⟨"סוטה", "Sotah", 17⟩,
  ⟨"גיטין", "Gitin", 18⟩,
  ⟨"קידושין", "Kiddushin", 19⟩,
  ⟨"בבא קמא", "Bava Kamma", 20⟩,
  ⟨"בבא מציעא", "Bava Metzia", 21⟩,
  ⟨"בבא בתרא", "Bava Basra", 22⟩,
  ⟨"סנהדרין", "Sanhedrin", 23⟩,
  ⟨"מכות", "Makkos", 24⟩,
  ⟨"שבועות", "Shevuos", 25⟩,
  ⟨"עבודה זרה", "Avodah Zarah", 26⟩,
  ⟨"הוריות", "Horiyos", 27⟩,
  ⟨"זבחים", "Zevachim", 28⟩,
  ⟨"מנחות", "Menachos", 29⟩,
  ⟨"חולין", "Chullin", 30⟩,
  ⟨"בכורות", "Bechoros", 31⟩,
  ⟨"ערכין", "Arachin", 32⟩,
  ⟨"תמורה", "Temurah", 33⟩,
  ⟨"כריתות", "Kerisos", 34⟩,
  ⟨"מעילה", "Meilah", 35⟩,
  ⟨"קינים", "Kinnim", 36⟩,
  ⟨"תמיד", "Tamid", 37⟩,
  ⟨"מידות", "Midos", 38⟩,
  ⟨"נדה", "Niddah", 39⟩
]

/-- The `YERUSHALMI_TRACTATES` table. -/
def YERUSHALMI_TRACTATES : List TransliteratedEnumMember := [
  ⟨"ברכות", "Berachos", 0⟩,
  ⟨"פיאה", "Pe\x27ah", 1⟩,
  ⟨"דמאי", "Demai", 2⟩,
  ⟨"כלאים", "Kilayim", 3⟩,
  ⟨"שביעית", "Shevi\x27is", 4⟩,
  ⟨"תרומות", "Terumos", 5⟩,
  ⟨"מעשרות", "Ma\x27asros", 6⟩,
  ⟨"מעשר שני", "Ma\x27aser Sheni", 7⟩,
  ⟨"חלה", "Chalah", 8⟩,
  ⟨"עורלה", "Orlah", 9⟩,
  ⟨"ביכורים", "Bikurim", 10⟩,
  ⟨"שבת", "Shabbos", 11⟩,
  ⟨"עירובין", "Eruvin", 12⟩,
  ⟨"פסחים", "Pesachim", 13⟩,
  ⟨"ביצה", "Beitzah", 14⟩,
  ⟨"ראש השנה", "Rosh Hashanah", 15⟩,
  ⟨"יומא", "Yoma", 16⟩,
  ⟨"סוכה", "Sukah", 17⟩,
  ⟨"תענית", "Ta\x27anis", 18⟩,
  ⟨"שקלים", "Shekalim", 19⟩,
  ⟨"מגילה", "Megilah", 20⟩,
  ⟨"חגיגה", "Chagigah", 21⟩,
  ⟨"מועד קטן", "Moed Katan", 22⟩,
  ⟨"יבמות", "Yevamos", 23⟩,
  ⟨"כתובות", "Kesuvos", 24⟩,
  ⟨"סוטה", "Sotah", 25⟩,
  ⟨"נדרים", "Nedarim", 26⟩,
  ⟨"נזיר", "Nazir", 27⟩,
  ⟨"גיטין", "Gitin", 28⟩,
  ⟨"קידושין", "Kidushin", 29⟩,
  ⟨"בבא קמא", "Bava Kama", 30⟩,
  ⟨"בבא מציעא", "Bava Metzia", 31⟩,
  ⟨"בבא בתרא", "Bava Basra", 32⟩,
  ⟨"שבועות", "Shevuos", 33⟩,
  ⟨"מכות", "Makos", 34⟩,
  ⟨"סנהדרין", "Sanhedrin", 35⟩,
  ⟨"עבודה זרה", "Avodah Zarah", 36⟩,
  ⟨"הוריות", "Horayos", 37⟩,
  ⟨"נידה", "Nidah", 38⟩
]

/-- The `CONSTANTS` table. -/
def CONSTANTS : List Constant := [
  ⟨"JULIAN_DAY_JAN_1_2000", .float, "2451545.0"⟩,
  ⟨"JULIAN_DAYS_PER_CENTURY", .float, "36525.0"⟩,
  ⟨"EARTH_RADIUS", .float, "6356.9"⟩,
  ⟨"GEOMETRIC_ZENITH", .float, "90.0"⟩,
  ⟨"CIVIL_ZENITH", .float, "96.0"⟩,
  ⟨"NAUTICAL_ZENITH", .float, "102.0"⟩,
  ⟨"ASTRONOMICAL_ZENITH", .float, "108.0"⟩,
  ⟨"SOLAR_RADIUS", .float, "16.0 / 60.0"⟩,
  ⟨"REFRACTION", .float, "34.0 / 60.0"⟩,
  ⟨"ZENITH_16_POINT_1", .float, "90.0 + 16.1"⟩,
  ⟨"ZENITH_8_POINT_5", .float, "90.0 + 8.5"⟩,
  ⟨"ZENITH_3_POINT_7", .float, "90.0 + 3.7"⟩,
  ⟨"ZENITH_3_POINT_8", .float, "90.0 + 3.8"⟩,
  ⟨"ZENITH_5_POINT_95", .float, "90.0 + 5.95"⟩,
  ⟨"ZENITH_7_POINT_083", .float, "90.0 + 7.0 + (5.0 / 60.0)"⟩,
  ⟨"ZENITH_10_POINT_2", .float, "90.0 + 10.2"⟩,
  ⟨"ZENITH_11_DEGREES", .float, "90.0 + 11.0"⟩,
  ⟨"ZENITH_11_POINT_5", .float, "90.0 + 11.5"⟩,
  ⟨"ZENITH_13_POINT_24", .float, "90.0 + 13.24"⟩,
  ⟨"ZENITH_19_DEGREES", .float, "90.0 + 19.0"⟩,
  ⟨"ZENITH_19_POINT_8", .float, "90.0 + 19.8"⟩,
  ⟨"ZENITH_26_DEGREES", .float, "90.0 + 26.0"⟩,
  ⟨"ZENITH_4_POINT_37", .float, "90.0 + 4.37"⟩,
  ⟨"ZENITH_4_POINT_61", .float, "90.0 + 4.61"⟩,
  ⟨"ZENITH_4_POINT_8", .float, "90.0 + 4.8"⟩,
  ⟨"ZENITH_3_POINT_65", .float, "90.0 + 3.65"⟩,
  ⟨"ZENITH_3_POINT_676", .float, "90.0 + 3.676"⟩,
  ⟨"ZENITH_5_POINT_88", .float, "90.0 + 5.88"⟩,
  ⟨"ZENITH_1_POINT_583", .float, "90.0 + 1.583"⟩,
  ⟨"ZENITH_16_POINT_9", .float, "90.0 + 16.9"⟩,
  ⟨"ZENITH_6_DEGREES", .float, "90.0 + 6.0"⟩,
  ⟨"ZENITH_6_POINT_45", .float, "90.0 + 6.45"⟩,
  ⟨"ZENITH_7_POINT_65", .float, "90.0 + 7.65"⟩,
  ⟨"ZENITH_7_POINT_67", .float, "90.0 + 7.67"⟩,
  ⟨"ZENITH_9_POINT_3", .float, "90.0 + 9.3"⟩,
  ⟨"ZENITH_9_POINT_5", .float, "90.0 + 9.5"⟩,
  ⟨"ZENITH_9_POINT_75", .float, "90.0 + 9.75"⟩,
  ⟨"ZENITH_MINUS_2_POINT_1", .float, "90.0 - 2.1"⟩,
  ⟨"ZENITH_MINUS_2_POINT_8", .float, "90.0 - 2.8"⟩,
  ⟨"ZENITH_MINUS_3_POINT_05", .float, "90.0 - 3.05"⟩,
  ⟨"CHALAKIM_PER_MINUTE", .int, "18"⟩,
  ⟨"CHALAKIM_PER_HOUR", .int, "1080"⟩,
  ⟨"CHALAKIM_PER_DAY", .int, "25920"⟩,
  ⟨"CHALAKIM_PER_MONTH", .int, "765433"⟩,
  ⟨"CHALAKIM_MOLAD_TOHU", .int, "31524"⟩,
  ⟨"JEWISH_EPOCH", .int, "-1373429"⟩,
  ⟨"MINUTE_MILLIS", .int, "60 * 1000"⟩,
  ⟨"HOUR_MILLIS", .int, "60 * 1000 * 60"⟩,
  ⟨"BAVLI_DAF_YOMI_START_DAY", .datetime, "-1461369600000"⟩,
  ⟨"BAVLI_SHEKALIM_CHANGE_DAY", .datetime, "172800000000"⟩,
  ⟨"YERUSHALMI_DAF_YOMI_START_DAY", .datetime, "318297600000"⟩,
  ⟨"YERUSHALMI_LENGTH", .int, "1554"⟩
]

/-- The `ENUMS` table. -/
def ENUMS : List Enum := [
  ⟨"SOLAR_EVENT", [⟨"Sunrise", 0⟩, ⟨"Sunset", 1⟩, ⟨"Noon", 2⟩, ⟨"Midnight", 3⟩]⟩,
  ⟨"FORMULA", [⟨"Distance", 0⟩, ⟨"InitialBearing", 1⟩, ⟨"FinalBearing", 2⟩]⟩
]

/-- The full text the `enums` command writes: the import header, the plain
enums, then the seven transliterated-enum tables in invocation order. -/
def enumsBuffer : String :=
  useHeader ++
  String.join (ENUMS.map plainEnumDecl) ++
  transliterated_enums_to_rust "Parsha" PARSHAS ++
  transliterated_enums_to_rust "JewishHoliday" JEWISH_HOLIDAYS ++
  transliterated_enums_to_rust "DayOfWeek" DAY_OF_WEEKS ++
  transliterated_enums_to_rust "JewishMonth" HEBREW_MONTHS ++
  transliterated_enums_to_rust "YearLengthType" YEAR_LENGTH_TYPES ++
  transliterated_enums_to_rust "BavliTractate" BAVLI_TRACTATES ++
  transliterated_enums_to_rust "YerushalmiTractate" YERUSHALMI_TRACTATES

/-- The names and tables of the seven transliterated-enum invocations of the
`enums` command, in order. -/
def transliteratedTables : List (String × List TransliteratedEnumMember) :=
  [("Parsha", PARSHAS), ("JewishHoliday", JEWISH_HOLIDAYS),
   ("DayOfWeek", DAY_OF_WEEKS), ("JewishMonth", HEBREW_MONTHS),
   ("YearLengthType", YEAR_LENGTH_TYPES), ("BavliTractate", BAVLI_TRACTATES),
   ("YerushalmiTractate", YERUSHALMI_TRACTATES)]

/-! ## Emitter lemmas -/

/-- A `real`-typed constant renders verbatim with the 64-bit float
annotation. -/
theorem constantLine_float {c : Constant} (h : c.type = .float) :
    constantLine c =
      .ok ("pub static _" ++ c.name ++ ": " ++ "f64" ++ " = " ++ c.value ++ ";\n") := by
  simp [constantLine, h, type_to_rust]

/-- An `integer`-typed constant renders verbatim with the 64-bit signed
integer annotation. -/
theorem constantLine_int {c : Constant} (h : c.type = .int) :
    constantLine c =
      .ok ("pub static _" ++ c.name ++ ": " ++ "i64" ++ " = " ++ c.value ++ ";\n") := by
  simp [constantLine, h, type_to_rust]

/-- An `instant`-typed constant renders as the
construction-from-epoch-milliseconds initializer. -/
theorem constantLine_datetime {c : Constant} (h : c.type = .datetime) :
    constantLine c =
      .ok ("pub static _" ++ c.name ++ ": DateTime<Utc> = DateTime::from_timestamp_millis(" ++
        c.value ++ ").unwrap();\n") := by
  simp [constantLine, h]

/-- An unmapped semantic type raises `ValueError` instead of rendering. -/
theorem constantLine_other {c : Constant} {s : String} (h : c.type = .other s) :
    constantLine c = .error ("Unknown type: " ++ s) := by
  simp [constantLine, h, type_to_rust]

/-- The `ValueError` from an unmapped type propagates out of the constants
loop, whatever came before the bad record. -/
theorem constantsLoop_isOk_false {c : Constant} {s : String} {cs : List Constant}
    (ht : c.type = .other s) :
    ∀ init : String, c ∈ cs → (constantsLoop init cs).isOk = false := by
  induction cs with
  | nil =>
    intro init hmem
    cases hmem
  | cons d cs ih =>
    intro init hmem
    rw [List.mem_cons] at hmem
    rcases hmem with rfl | hmem
    · rw [constantsLoop, constantLine_other ht]
      rfl
    · rcases hline : constantLine d with e | line
      · rw [constantsLoop, hline]
        rfl
      · rw [constantsLoop, hline]
        exact ih (init ++ line) hmem

/-! ## Claim C1 -/

/-- A public zero-argument `Date`-returning accessor (concrete instance). -/
def declGetSunriseC1 : BodyDecl :=
  ⟨some "getSunrise", some "MethodDeclaration",
   some [⟨some "Modifier", some "public", none⟩],
   some ⟨some "SimpleType", some "Date"⟩, some []⟩

/-- A public one-argument `Date`-returning accessor (concrete instance). -/
def declGetOffsetC1 : BodyDecl :=
  ⟨some "getOffset", some "MethodDeclaration",
   some [⟨some "Modifier", some "public", none⟩],
   some ⟨some "SimpleType", some "Date"⟩, some [()]⟩

/-- Member list holding one zero-argument and one argument-taking
`Date`-returning declaration. -/
def dsC1 : List BodyDecl := [declGetSunriseC1, declGetOffsetC1]

/-- The AST root wrapping `dsC1`. -/
def dataC1 : Root := ⟨some [⟨some dsC1⟩]⟩

/-- The bucket state the classifier produces on `dataC1`. -/
def bucketsC1 : Buckets := ⟨["Sunrise"], ["Offset"], []⟩

/-- Claim C1 (counterexample): on a concrete AST, `getSunrise` passes the
pipeline into the zero-argument bucket, yet its name does not appear among
the printed enumeration's variant names, while the argument-taking name
`Offset` does — the printed skeleton lists `zmanim_methods`, not
`zmanim_calc_methods`. -/
theorem c1_counterexample :
    runClassifier dataC1 = .ok bucketsC1 ∧
      declGetSunriseC1 ∈ dsC1 ∧
      classifyDecl declGetSunriseC1 = .ok (some (.calc, "Sunrise")) ∧
      "Sunrise" ∉ variantNames bucketsC1 ∧
      "Offset" ∈ variantNames bucketsC1 ∧
      "    Offset," ∈ printedEnum bucketsC1 ∧
      "    Sunrise," ∉ printedEnum bucketsC1 := by
  decide

/-- Claim C1 (amended): the printed enumeration's variant names are exactly
the names of the argument-taking bucket: a name appears iff some declaration
of the member list was classified as an argument-taking `Date`-returning
method with that (accessor-prefix-stripped) name. -/
theorem c1_enum_prints_argument_bucket (ds : List BodyDecl) (st : Buckets)
    (h : runDecls emptyBuckets ds = .ok st) (n : String) :
    n ∈ variantNames st ↔ ∃ d ∈ ds, classifyDecl d = .ok (some (.args, n)) := by
  have hm := runDecls_mem h Bucket.args n
  simp only [bucketOf, emptyBuckets, List.not_mem_nil, false_or] at hm
  rw [variantNames, sortB, List.mem_insertionSort]
  exact hm

/-- Claim C1 (amended, witness). -/
theorem c1_witness :
    runDecls emptyBuckets dsC1 = .ok bucketsC1 ∧
      ("Offset" ∈ variantNames bucketsC1 ↔
        ∃ d ∈ dsC1, classifyDecl d = .ok (some (.args, "Offset"))) :=
  ⟨by decide, c1_enum_prints_argument_bucket dsC1 bucketsC1 (by decide) "Offset"⟩

/-! ## Claim C2 -/

/-- Claim C2: for a declaration passing the filtering pipeline whose return
type is a simple type named `Date`, a wholly absent `parameters` field routes
the declaration to the argument-taking bucket (the defaulted list has length
1), and only a present, empty `parameters` sequence can route it to the
zero-argument bucket. -/
theorem c2_missing_parameters_means_args (d : BodyDecl) (rt : ReturnType2)
    (hset : strStartsWith (d.nameIdentifier.getD "") "set" = false)
    (hnode : d.node = some "MethodDeclaration")
    (hpub : (modifierFlags false (d.modifiers.getD [])).1 = true)
    (hdep : (modifierFlags false (d.modifiers.getD [])).2 = false)
    (hrt : d.returnType2 = some rt)
    (hsimple : rt.node.getD "" = "SimpleType")
    (hdate : rt.nameIdentifier.getD "" = "Date") :
    (d.parameters = none → classifyDecl d = .ok (some (.args, strippedName d))) ∧
      (∀ n, classifyDecl d = .ok (some (.calc, n)) → d.parameters = some []) := by
  have h0 := classifyDecl_date hset hnode hpub hdep hrt hsimple hdate
  constructor
  · intro hp
    rw [hp] at h0
    simpa using h0
  · intro n hn
    rw [h0] at hn
    rcases hp : d.parameters with _ | l
    · rw [hp] at hn
      simp at hn
    · rw [hp] at hn
      rcases hl : l with _ | ⟨u, l2⟩
      · rfl
      · rw [hl] at hn
        simp at hn

/-- A qualified `Date`-returning declaration with no `parameters` field. -/
def declNoParamsC2 : BodyDecl :=
  ⟨some "getFoo", some "MethodDeclaration",
   some [⟨some "Modifier", some "public", none⟩],
   some ⟨some "SimpleType", some "Date"⟩, none⟩

/-- Claim C2 (witness). -/
theorem c2_witness :
    declNoParamsC2.parameters = none ∧
      classifyDecl declNoParamsC2 = .ok (some (.args, strippedName declNoParamsC2)) :=
  ⟨rfl,
    (c2_missing_parameters_means_args declNoParamsC2 ⟨some "SimpleType", some "Date"⟩
      (by decide) (by decide) (by decide) (by decide) (by decide) (by decide)
      (by decide)).1 rfl⟩

/-! ## Claim C3 -/

/-- A method declaration carrying no `modifiers` field at all (and none of
the other optional fields). -/
def declNoModifiersC3 : BodyDecl :=
  ⟨some "foo", some "MethodDeclaration", none, none, none⟩

/-- The AST root wrapping `declNoModifiersC3`. -/
def dataC3 : Root := ⟨some [⟨some [declNoModifiersC3]⟩]⟩

/-- A declaration missing the node-kind tag. -/
def declMissingNodeC3 : BodyDecl := ⟨some "foo", none, none, none, none⟩

/-- Claim C3 (counterexample): a declaration whose `modifiers` list is
wholly absent is tolerated by the default — it is skipped without error and
the run completes — contradicting the claim that the modifiers list is
explicitly required. -/
theorem c3_counterexample :
    declNoModifiersC3.modifiers = none ∧
      classifyDecl declNoModifiersC3 = .ok none ∧
      runClassifier dataC3 = .ok emptyBuckets := by
  decide

/-- Claim C3 (amended): every declaration-level field other than the
node-kind tag is tolerated via a default — in particular a declaration with
the node tag present never raises, whatever else is absent (an absent
modifiers list merely defaults to empty, disqualifying the declaration as
non-public) — while a missing node tag raises (unless the mutator-prefix
rule already skipped the declaration), and a missing root type list, empty
root type list, or missing member list each abort the run. -/
theorem c3_field_defaults :
    (∀ (d : BodyDecl) (nd : String), d.node = some nd →
        ∃ r, classifyDecl d = .ok r) ∧
      (∀ d : BodyDecl, strStartsWith (d.nameIdentifier.getD "") "set" = false →
        d.node = none → classifyDecl d = .error "KeyError: node") ∧
      runClassifier ⟨none⟩ = .error "KeyError: types" ∧
      runClassifier ⟨some []⟩ = .error "IndexError: types[0]" ∧
      (∀ rest, runClassifier ⟨some (⟨none⟩ :: rest)⟩ =
        .error "KeyError: bodyDeclarations") :=
  ⟨fun _ _ h => classifyDecl_ok_of_node h,
   fun _ h1 h2 => classifyDecl_missing_node h1 h2,
   rfl, rfl, fun _ => rfl⟩

/-- Claim C3 (amended, witness). -/
theorem c3_witness :
    (∃ r, classifyDecl declNoModifiersC3 = .ok r) ∧
      classifyDecl declMissingNodeC3 = .error "KeyError: node" :=
  ⟨c3_field_defaults.1 declNoModifiersC3 "MethodDeclaration" rfl,
   c3_field_defaults.2.1 declMissingNodeC3 (by decide) rfl⟩

/-! ## Claim C6 -/

/-- Claim C6: a declaration named `getX` (accessor prefix plus suffix `X`)
that passes the filtering pipeline, returns a bare `Date` type and has a
present, empty parameter list puts `X` in the zero-argument bucket exactly
once — even when several overloads share the name — and the rendered
sequence of every bucket is sorted with no duplicates. -/
theorem c6_dedup_sorted (ds : List BodyDecl) (st : Buckets) (d : BodyDecl)
    (rt : ReturnType2) (X : String)
    (h : runDecls emptyBuckets ds = .ok st) (hd : d ∈ ds)
    (hset : strStartsWith (d.nameIdentifier.getD "") "set" = false)
    (hget : strStartsWith (d.nameIdentifier.getD "") "get" = true)
    (hX : strDrop (d.nameIdentifier.getD "") 3 = X)
    (hnode : d.node = some "MethodDeclaration")
    (hpub : (modifierFlags false (d.modifiers.getD [])).1 = true)
    (hdep : (modifierFlags false (d.modifiers.getD [])).2 = false)
    (hrt : d.returnType2 = some rt)
    (hsimple : rt.node.getD "" = "SimpleType")
    (hdate : rt.nameIdentifier.getD "" = "Date")
    (hp : d.parameters = some []) :
    (sortB st.zmanim_calc_methods).count X = 1 ∧
      (sortB st.zmanim_calc_methods).Sorted strLeRel ∧
      (sortB st.zmanim_calc_methods).Nodup ∧
      (sortB st.zmanim_methods).Sorted strLeRel ∧
      (sortB st.zmanim_methods).Nodup ∧
      (sortB st.other_methods).Sorted strLeRel ∧
      (sortB st.other_methods).Nodup := by
  have hclass : classifyDecl d = .ok (some (.calc, X)) := by
    have h0 := classifyDecl_date hset hnode hpub hdep hrt hsimple hdate
    rw [hp] at h0
    simpa [strippedName, hget, hX] using h0
  have hmem : X ∈ bucketOf .calc st :=
    (runDecls_mem h Bucket.calc X).2 (Or.inr ⟨d, hd, hclass⟩)
  have hnd := runDecls_nodup
    (fun c => by cases c <;> simp [bucketOf, emptyBuckets]) h
  have hcount : (sortB st.zmanim_calc_methods).count X = 1 := by
    rw [sortB, (List.perm_insertionSort strLeRel st.zmanim_calc_methods).count_eq]
    exact List.count_eq_one_of_mem (hnd Bucket.calc) hmem
  refine ⟨hcount, ?_, ?_, ?_, ?_, ?_, ?_⟩ <;>
    first
      | exact List.sorted_insertionSort strLeRel _
      | exact ((List.perm_insertionSort strLeRel _).nodup_iff).2 (hnd Bucket.calc)
      | exact ((List.perm_insertionSort strLeRel _).nodup_iff).2 (hnd Bucket.args)
      | exact ((List.perm_insertionSort strLeRel _).nodup_iff).2 (hnd Bucket.other)

/-- One overload of a public zero-argument `Date`-returning `getSunrise`. -/
def declGetSunriseC6a : BodyDecl :=
  ⟨some "getSunrise", some "MethodDeclaration",
   some [⟨some "Modifier", some "public", none⟩],
   some ⟨some "SimpleType", some "Date"⟩, some []⟩

/-- A second overload with the same name (extra modifier, same shape). -/
def declGetSunriseC6b : BodyDecl :=
  ⟨some "getSunrise", some "MethodDeclaration",
   some [⟨some "Modifier", some "public", none⟩, ⟨some "Modifier", some "final", none⟩],
   some ⟨some "SimpleType", some "Date"⟩, some []⟩

/-- Member list with the two overloads. -/
def dsC6 : List BodyDecl := [declGetSunriseC6a, declGetSunriseC6b]

/-- The bucket state produced on `dsC6`. -/
def bucketsC6 : Buckets := ⟨["Sunrise"], [], []⟩

/-- Claim C6 (witness): with two `getSunrise` overloads, `Sunrise` is
counted once in the rendered zero-argument bucket. -/
theorem c6_witness :
    runDecls emptyBuckets dsC6 = .ok bucketsC6 ∧
      (sortB bucketsC6.zmanim_calc_methods).count "Sunrise" = 1 ∧
      (sortB bucketsC6.zmanim_calc_methods).Sorted strLeRel :=
  ⟨by decide,
    (c6_dedup_sorted dsC6 bucketsC6 declGetSunriseC6a ⟨some "SimpleType", some "Date"⟩
      "Sunrise"
      (by decide) (List.mem_cons_self _ _) (by decide) (by decide) (by decide)
      (by decide) (by decide) (by decide) (by decide) (by decide) (by decide)
      (by decide)).1,
    (c6_dedup_sorted dsC6 bucketsC6 declGetSunriseC6a ⟨some "SimpleType", some "Date"⟩
      "Sunrise"
      (by decide) (List.mem_cons_self _ _) (by decide) (by decide) (by decide)
      (by decide) (by decide) (by decide) (by decide) (by decide) (by decide)
      (by decide)).2.1⟩

/-! ## Claim C7 -/

/-- Claim C7: a declaration carrying the deprecated marker annotation among
its modifiers is placed in no bucket, regardless of its visibility
modifiers, return type or arity. -/
theorem c7_deprecated_excluded {d : BodyDecl}
    (h : hasDeprecatedMarker d = true) :
    ∀ b n, classifyDecl d ≠ .ok (some (b, n)) :=
  classifyDecl_deprecated h

/-- A public zero-argument `Date`-returning accessor that also carries the
`Deprecated` marker annotation. -/
def declDeprecatedC7 : BodyDecl :=
  ⟨some "getSunrise", some "MethodDeclaration",
   some [⟨some "Modifier", some "public", none⟩,
         ⟨some "MarkerAnnotation", none, some "Deprecated"⟩],
   some ⟨some "SimpleType", some "Date"⟩, some []⟩

/-- Claim C7 (witness). -/
theorem c7_witness :
    hasDeprecatedMarker declDeprecatedC7 = true ∧
      classifyDecl declDeprecatedC7 ≠ .ok (some (.calc, "Sunrise")) :=
  ⟨by decide, c7_deprecated_excluded (by decide) .calc "Sunrise"⟩

/-! ## Claim C8 -/

/-- Claim C8: a declaration whose name starts with the mutator prefix is
skipped outright, and every name present in any final bucket was put there
by some declaration that classified into that bucket — so a `setX`
declaration contributes nothing, and its suffix can only appear if another
declaration independently qualifies it. -/
theorem c8_mutator_excluded (ds : List BodyDecl) (st : Buckets) (d : BodyDecl)
    (h : runDecls emptyBuckets ds = .ok st)
    (hset : strStartsWith (d.nameIdentifier.getD "") "set" = true) :
    classifyDecl d = .ok none ∧
      ∀ b n, n ∈ bucketOf b st →
        ∃ d' ∈ ds, classifyDecl d' = .ok (some (b, n)) := by
  refine ⟨classifyDecl_set hset, fun b n hn => ?_⟩
  have hm := (runDecls_mem h b n).1 hn
  rcases hm with hm | hm
  · cases b <;> simp [bucketOf, emptyBuckets] at hm
  · exact hm

/-- A public `setSunrise` mutator declaration. -/
def declSetSunriseC8 : BodyDecl :=
  ⟨some "setSunrise", some "MethodDeclaration",
   some [⟨some "Modifier", some "public", none⟩],
   some ⟨some "SimpleType", some "Date"⟩, some []⟩

/-- A public argument-taking `Date` accessor alongside the mutator. -/
def declGetOffsetC8 : BodyDecl :=
  ⟨some "getOffset", some "MethodDeclaration",
   some [⟨some "Modifier", some "public", none⟩],
   some ⟨some "SimpleType", some "Date"⟩, some [()]⟩

/-- Member list with a mutator and an accessor. -/
def dsC8 : List BodyDecl := [declSetSunriseC8, declGetOffsetC8]

/-- The bucket state produced on `dsC8`. -/
def bucketsC8 : Buckets := ⟨[], ["Offset"], []⟩

/-- Claim C8 (witness). -/
theorem c8_witness :
    classifyDecl declSetSunriseC8 = .ok none ∧
      ∃ d' ∈ dsC8, classifyDecl d' = .ok (some (.args, "Offset")) :=
  ⟨(c8_mutator_excluded dsC8 bucketsC8 declSetSunriseC8 (by decide) (by decide)).1,
    (c8_mutator_excluded dsC8 bucketsC8 declSetSunriseC8 (by decide)
      (by decide)).2 .args "Offset" (by decide)⟩

/-! ## Claim C4 -/

/-- Claim C4: every constant record renders as exactly one static
declaration — `real` (`float`) with the literal verbatim annotated `f64`,
`integer` (`int`) with the literal verbatim annotated `i64`, `instant`
(`datetime`) as a construction-from-epoch-milliseconds expression using the
literal as the millisecond count — and the generated initializer aborts at
initialization whenever the millisecond count is outside the representable
range. -/
theorem c4_constant_rendering (c : Constant) :
    (c.type = .float → constantLine c =
      .ok ("pub static _" ++ c.name ++ ": " ++ "f64" ++ " = " ++ c.value ++ ";\n")) ∧
      (c.type = .int → constantLine c =
        .ok ("pub static _" ++ c.name ++ ": " ++ "i64" ++ " = " ++ c.value ++ ";\n")) ∧
      (c.type = .datetime → constantLine c =
        .ok ("pub static _" ++ c.name ++
          ": DateTime<Utc> = DateTime::from_timestamp_millis(" ++ c.value ++
          ").unwrap();\n")) ∧
      (∀ lo hi v : Int, (v < lo ∨ hi < v) →
        fromTimestampMillisUnwrap lo hi v =
          .error "called Option::unwrap() on a None value") := by
  refine ⟨fun h => constantLine_float h, fun h => constantLine_int h,
    fun h => constantLine_datetime h, fun lo hi v h => ?_⟩
  unfold fromTimestampMillisUnwrap
  rw [if_neg]
  rintro ⟨h1, h2⟩
  rcases h with h | h <;> omega

/-- Claim C4 (witness): the three concrete renderings from the `CONSTANTS`
table and an out-of-range millisecond count. -/
theorem c4_witness :
    constantLine ⟨"EARTH_RADIUS", .float, "6356.9"⟩ =
        .ok ("pub static _" ++ "EARTH_RADIUS" ++ ": " ++ "f64" ++ " = " ++
          "6356.9" ++ ";\n") ∧
      constantLine ⟨"CHALAKIM_PER_MINUTE", .int, "18"⟩ =
        .ok ("pub static _" ++ "CHALAKIM_PER_MINUTE" ++ ": " ++ "i64" ++ " = " ++
          "18" ++ ";\n") ∧
      constantLine ⟨"BAVLI_DAF_YOMI_START_DAY", .datetime, "-1461369600000"⟩ =
        .ok ("pub static _" ++ "BAVLI_DAF_YOMI_START_DAY" ++
          ": DateTime<Utc> = DateTime::from_timestamp_millis(" ++
          "-1461369600000" ++ ").unwrap();\n") ∧
      fromTimestampMillisUnwrap 0 10 11 =
        .error "called Option::unwrap() on a None value" :=
  ⟨(c4_constant_rendering ⟨"EARTH_RADIUS", .float, "6356.9"⟩).1 rfl,
   (c4_constant_rendering ⟨"CHALAKIM_PER_MINUTE", .int, "18"⟩).2.1 rfl,
   (c4_constant_rendering ⟨"BAVLI_DAF_YOMI_START_DAY", .datetime,
     "-1461369600000"⟩).2.2.1 rfl,
   (c4_constant_rendering ⟨"EARTH_RADIUS", .float, "6356.9"⟩).2.2.2 0 10 11
     (by decide)⟩

/-! ## Claim C5 -/

/-- Claim C5: for any transliterated-enum table, both generated lookup
functions are total over the generated enumeration and consist of exactly
one match arm per table member — keyed by the identifier-cased
transliterated label, returning the transliterated string and the
native-script string respectively — with no default arm, and the emitted
text is exactly the enumeration declaration followed by the two matches
assembled from those arm lists. -/
theorem c5_lookup_totality (name : String)
    (enums : List TransliteratedEnumMember) :
    ((en_arms enums).map Prod.fst = variantsOf enums) ∧
      ((he_arms enums).map Prod.fst = variantsOf enums) ∧
      ((en_arms enums).length = enums.length) ∧
      ((he_arms enums).length = enums.length) ∧
      (∀ m ∈ enums,
        (pascalcase m.transliterated_name, m.transliterated_name) ∈ en_arms enums ∧
          (pascalcase m.transliterated_name, m.name) ∈ he_arms enums) ∧
      (∀ v ∈ variantsOf enums,
        (∃ s, (v, s) ∈ en_arms enums) ∧ ∃ s, (v, s) ∈ he_arms enums) ∧
      transliterated_enums_to_rust name enums =
        deriveHeader ++ "pub enum " ++ name ++ " \x7b\n" ++
          String.join (enums.map variantLine) ++ "\x7d\n" ++
          ("impl " ++ name ++ " \x7b\n" ++
            "pub fn en_string(&self) -> &str \x7b match self \x7b" ++
            String.join ((en_arms enums).map (armLine name)) ++ "\x7d\x7d\n" ++
            "pub fn he_string(&self) -> &str \x7b match self \x7b" ++
            String.join ((he_arms enums).map (armLine name)) ++ "\x7d\x7d\n" ++
            "\x7d\n") := by
  refine ⟨?_, ?_, ?_, ?_, ?_, ?_, ?_⟩
  · simp [en_arms, variantsOf, List.map_map]
  · simp [he_arms, variantsOf, List.map_map]
  · simp [en_arms]
  · simp [he_arms]
  · intro m hm
    exact ⟨List.mem_map_of_mem _ hm, List.mem_map_of_mem _ hm⟩
  · intro v hv
    rw [variantsOf, List.mem_map] at hv
    obtain ⟨m, hm, rfl⟩ := hv
    exact ⟨⟨m.transliterated_name, List.mem_map_of_mem _ hm⟩,
      ⟨m.name, List.mem_map_of_mem _ hm⟩⟩
  · rw [transliterated_enums_to_rust]
    simp [String.append_assoc, String.empty_append]

/-- Claim C5 (witness): instantiated on the day-of-week table at the member
for Shabbos. -/
theorem c5_witness :
    (pascalcase "Shabbos", "Shabbos") ∈ en_arms DAY_OF_WEEKS ∧
      (pascalcase "Shabbos", "שבת") ∈ he_arms DAY_OF_WEEKS :=
  (c5_lookup_totality "DayOfWeek" DAY_OF_WEEKS).2.2.2.2.1
    ⟨"שבת", "Shabbos", 7⟩ (by decide)

/-! ## Claim C9 -/

/-- Claim C9: a constant record whose semantic type tag is not one of the
recognized three makes the whole constants rendering abort with an error —
no output is produced for the run. -/
theorem c9_unknown_type_aborts (cs : List Constant) (c : Constant) (s : String)
    (hc : c ∈ cs) (ht : c.type = .other s) :
    (constantsBuffer cs).isOk = false :=
  constantsLoop_isOk_false ht useHeader hc

/-- A table with one well-typed record followed by one unknown-typed
record. -/
def csC9 : List Constant :=
  [⟨"GOOD", .float, "1.0"⟩, ⟨"BAD", .other "<class str>", "1"⟩]

/-- Claim C9 (witness). -/
theorem c9_witness : (constantsBuffer csC9).isOk = false :=
  c9_unknown_type_aborts csC9 ⟨"BAD", .other "<class str>", "1"⟩ "<class str>"
    (by decide) rfl

/-! ## Claim C10 -/

/-- Everything the plain-enum declaration emits after its type name. -/
def plainEnumBody (e : Enum) : String :=
  " \x7b\n" ++
    String.join (e.members.map
      (fun member => "    " ++ pascalcase member.name ++ " = " ++
        toString member.value ++ ",\n")) ++ "\x7d\n"

/-- Everything the transliterated-enum output emits after its type name. -/
def translitBody (name : String) (tbl : List TransliteratedEnumMember) : String :=
  " \x7b\n" ++ String.join (tbl.map variantLine) ++ "\x7d\n" ++
    ("impl " ++ name ++ " \x7b\n" ++
      "pub fn en_string(&self) -> &str \x7b match self \x7b" ++
      String.join ((en_arms tbl).map (armLine name)) ++ "\x7d\x7d\n" ++
      "pub fn he_string(&self) -> &str \x7b match self \x7b" ++
      String.join ((he_arms tbl).map (armLine name)) ++ "\x7d\x7d\n" ++ "\x7d\n")

/-- Claim C10: every emitted constant declaration is named with a leading
underscore (`pub static _NAME`), every plain-enum type name is emitted as
`pub enum _PascalName`, while each of the seven transliterated-enum type
names is emitted as `pub enum Name` with no underscore; in particular
`EARTH_RADIUS` becomes `_EARTH_RADIUS` and `SOLAR_EVENT` becomes
`_SolarEvent`. -/
theorem c10_underscore_prefixes :
    (∀ (c : Constant) (l : String), constantLine c = .ok l →
        ∃ rest, l = "pub static _" ++ (c.name ++ rest)) ∧
      (∀ e : Enum,
        plainEnumDecl e = deriveHeader ++ ("pub enum _" ++ (pascalcase e.name ++ plainEnumBody e))) ∧
      (∀ (name : String) (tbl : List TransliteratedEnumMember),
        transliterated_enums_to_rust name tbl =
          deriveHeader ++ ("pub enum " ++ (name ++ translitBody name tbl))) ∧
      transliteratedTables.map Prod.fst =
        ["Parsha", "JewishHoliday", "DayOfWeek", "JewishMonth",
         "YearLengthType", "BavliTractate", "YerushalmiTractate"] ∧
      (∀ n ∈ transliteratedTables.map Prod.fst, strStartsWith n "_" = false) ∧
      pascalcase "SOLAR_EVENT" = "SolarEvent" ∧
      constantLine ⟨"EARTH_RADIUS", .float, "6356.9"⟩ =
        .ok "pub static _EARTH_RADIUS: f64 = 6356.9;\n" := by
  refine ⟨?_, ?_, ?_, by decide, by decide, by decide, by decide⟩
  · intro c l h
    rcases hty : c.type with _ | _ | _ | s
    · rw [constantLine_float hty] at h
      injection h with h
      exact ⟨": f64 = " ++ (c.value ++ ";\n"),
        by rw [← h]; simp [String.append_assoc]⟩
    · rw [constantLine_int hty] at h
      injection h with h
      exact ⟨": i64 = " ++ (c.value ++ ";\n"),
        by rw [← h]; simp [String.append_assoc]⟩
    · rw [constantLine_datetime hty] at h
      injection h with h
      exact ⟨": DateTime<Utc> = DateTime::from_timestamp_millis(" ++
          (c.value ++ ").unwrap();\n"),
        by rw [← h]; simp [String.append_assoc]⟩
    · rw [constantLine_other hty] at h
      cases h
  · intro e
    rw [plainEnumDecl, plainEnumBody]
    simp [String.append_assoc]
  · intro name tbl
    rw [transliterated_enums_to_rust, translitBody]
    simp [String.append_assoc, String.empty_append]

/-- Claim C10 (witness): the generic parts applied at concrete inputs. -/
theorem c10_witness :
    (∃ rest, "pub static _EARTH_RADIUS: f64 = 6356.9;\n" =
        "pub static _" ++ ("EARTH_RADIUS" ++ rest)) ∧
      strStartsWith "Parsha" "_" = false :=
  ⟨c10_underscore_prefixes.1 ⟨"EARTH_RADIUS", .float, "6356.9"⟩
      "pub static _EARTH_RADIUS: f64 = 6356.9;\n" (by decide),
    c10_underscore_prefixes.2.2.2.2.1 "Parsha" (by decide)⟩

end ZmanimGen
